import Mathlib

/-!
Shallow embedding of the stac-fastapi slice:
  src/stac_fastapi/types/stac_fastapi/types/core.py
  src/stac_fastapi/extensions/stac_fastapi/extensions/core/transaction.py

Python dicts that the code treats as records are embedded as Lean
structures; a dict key whose value may be absent or None is an
`Option` field.  Methods become functions taking the object as the
first argument.  Values obtained from the surrounding web framework
(the request's base URL, the result of `all_collections`) are passed
as explicit parameters.  Python exceptions are `Except` errors.
-/

namespace StacFastapi

/-- Python runtime errors that the embedded code can raise. -/
inductive PyError where
  | notImplementedError
  | typeError
  | attributeError
deriving DecidableEq, Repr

/-- Python truthiness of a string-or-None value: `None` and the empty
string are falsy, every other string is truthy. -/
def pyTruthy : Option String → Bool
  | none => false
  | some s => s ≠ ""

/-- Python `a or b` on string-or-None values: returns `a` when `a` is
truthy, otherwise `b`. -/
def pyOr (a b : Option String) : Option String :=
  if pyTruthy a then a else b

/-- Models `urllib.parse.urljoin(base, rel)` for the shapes used in
`core.py`: an absolute base URL joined with a plain relative path.
Everything after the last slash of the base is replaced by the
relative path.  (starlette's `request.base_url` always ends with a
slash, so there the relative path is simply appended.) -/
def urljoin (base rel : String) : String :=
  let pre := (base.data.reverse.dropWhile (fun c => c ≠ '/')).reverse
  String.mk (pre ++ rel.data)

/-! ## Transaction extension (transaction.py) -/

/-- The six client operations of the transaction client contract. -/
inductive ClientMethod where
  | create_item
  | update_item
  | delete_item
  | create_collection
  | update_collection
  | delete_collection
deriving DecidableEq, Repr

/-- An endpoint value as bound onto a route: either the client's bound
method itself (`self.client.create_item` etc.), or the result of one
of the two endpoint adapters from `stac_fastapi.api.routes`. -/
inductive Endpoint where
  | clientMethod (m : ClientMethod)
  | asyncEndpoint (m : ClientMethod)
  | syncEndpoint (m : ClientMethod)
deriving DecidableEq, Repr

/-- The transactions client supplied to the extension, reduced to what
`transaction.py` inspects: the two `isinstance` facts.  An instance of
`AsyncBaseTransactionsClient` has `isAsyncBase = true`, an instance of
`BaseTransactionsClient` has `isSyncBase = true`; an arbitrary foreign
object has both false. -/
structure TransactionsClient where
  isAsyncBase : Bool
  isSyncBase : Bool
deriving DecidableEq, Repr

/-- One route as added through `router.add_api_route`. -/
structure Route where
  name : String
  path : String
  methods : List String
  endpoint : Endpoint
deriving DecidableEq, Repr

/-- Embeds `TransactionExtension`: the attrs the registration code reads.
The `APIRouter` is embedded as its list of routes (factory default is
a fresh empty router). -/
structure TransactionExtension where
  client : TransactionsClient
  conformance_classes : List String := []
  router : List Route := []
deriving DecidableEq, Repr

/-- Embeds `TransactionExtension._create_endpoint`: dispatch on the
`isinstance` classification of the client, raising `NotImplementedError`
when the client is neither known variant. -/
def TransactionExtension.create_endpoint (ext : TransactionExtension)
    (func : ClientMethod) : Except PyError Endpoint :=
  if ext.client.isAsyncBase then
    Except.ok (Endpoint.asyncEndpoint func)
  else if ext.client.isSyncBase then
    Except.ok (Endpoint.syncEndpoint func)
  else
    Except.error PyError.notImplementedError

/-- Embeds `TransactionExtension.register_create_item`. -/
def TransactionExtension.register_create_item (ext : TransactionExtension) :
    TransactionExtension :=
  { ext with router := ext.router ++
      [⟨"Create Item", "/collections/{collection_id}/items", ["POST"],
        Endpoint.clientMethod ClientMethod.create_item⟩] }

/-- Embeds `TransactionExtension.register_update_item`. -/
def TransactionExtension.register_update_item (ext : TransactionExtension) :
    TransactionExtension :=
  { ext with router := ext.router ++
      [⟨"Update Item", "/collections/{collection_id}/items/{item_id}", ["PUT"],
        Endpoint.clientMethod ClientMethod.update_item⟩] }

/-- Embeds `TransactionExtension.register_delete_item`. -/
def TransactionExtension.register_delete_item (ext : TransactionExtension) :
    TransactionExtension :=
  { ext with router := ext.router ++
      [⟨"Delete Item", "/collections/{collection_id}/items/{item_id}", ["DELETE"],
        Endpoint.clientMethod ClientMethod.delete_item⟩] }

/-- Embeds `TransactionExtension.register_create_collection`. -/
def TransactionExtension.register_create_collection (ext : TransactionExtension) :
    TransactionExtension :=
  { ext with router := ext.router ++
      [⟨"Create Collection", "/collections", ["POST"],
        Endpoint.clientMethod ClientMethod.create_collection⟩] }

/-- Embeds `TransactionExtension.register_update_collection`. -/
def TransactionExtension.register_update_collection (ext : TransactionExtension) :
    TransactionExtension :=
  { ext with router := ext.router ++
      [⟨"Update Collection", "/collections/{collection_id}", ["PUT"],
        Endpoint.clientMethod ClientMethod.update_collection⟩] }

/-- Embeds `TransactionExtension.register_delete_collection`. -/
def TransactionExtension.register_delete_collection (ext : TransactionExtension) :
    TransactionExtension :=
  { ext with router := ext.router ++
      [⟨"Delete Collection", "/collections/{collection_id}", ["DELETE"],
        Endpoint.clientMethod ClientMethod.delete_collection⟩] }

/-- Embeds `TransactionExtension.register(app)`: performs the six
`register_*` calls in source order and hands the resulting router to
the application.  The result is the router's route list; the `Except`
layer carries any exception the registration body would raise. -/
def TransactionExtension.register (ext : TransactionExtension) :
    Except PyError (List Route) :=
  Except.ok
    (ext.register_create_item.register_update_item.register_delete_item.register_create_collection.register_update_collection.register_delete_collection).router

/-- The six routes that one `register` call appends, in source order. -/
def transactionRoutes : List Route :=
  [⟨"Create Item", "/collections/{collection_id}/items", ["POST"],
      Endpoint.clientMethod ClientMethod.create_item⟩,
   ⟨"Update Item", "/collections/{collection_id}/items/{item_id}", ["PUT"],
      Endpoint.clientMethod ClientMethod.update_item⟩,
   ⟨"Delete Item", "/collections/{collection_id}/items/{item_id}", ["DELETE"],
      Endpoint.clientMethod ClientMethod.delete_item⟩,
   ⟨"Create Collection", "/collections", ["POST"],
      Endpoint.clientMethod ClientMethod.create_collection⟩,
   ⟨"Update Collection", "/collections/{collection_id}", ["PUT"],
      Endpoint.clientMethod ClientMethod.update_collection⟩,
   ⟨"Delete Collection", "/collections/{collection_id}", ["DELETE"],
      Endpoint.clientMethod ClientMethod.delete_collection⟩]

lemma register_eq (ext : TransactionExtension) :
    ext.register = Except.ok (ext.router ++ transactionRoutes) := by
  simp [TransactionExtension.register, TransactionExtension.register_create_item,
    TransactionExtension.register_update_item, TransactionExtension.register_delete_item,
    TransactionExtension.register_create_collection,
    TransactionExtension.register_update_collection,
    TransactionExtension.register_delete_collection, transactionRoutes]

/-- Embeds the transactions client one level lower, for claims that
range over arbitrary client objects: besides the two `isinstance`
facts, `hasAttr` records which of the six method attributes the object
actually possesses.  An instance of either abstract base class
possesses all six; a foreign object may lack any of them. -/
structure TransactionsClientObj where
  isAsyncBase : Bool
  isSyncBase : Bool
  hasAttr : ClientMethod → Bool

/-- Embeds the Python attribute access `self.client.<m>`: the bound
method when the attribute exists, `AttributeError` otherwise. -/
def TransactionsClientObj.getMethod (c : TransactionsClientObj)
    (m : ClientMethod) : Except PyError Endpoint :=
  if c.hasAttr m then
    Except.ok (Endpoint.clientMethod m)
  else
    Except.error PyError.attributeError

/-- Embeds `TransactionExtension` over a raw client object. -/
structure TransactionExtensionObj where
  client : TransactionsClientObj
  conformance_classes : List String := []
  router : List Route := []

/-- Embeds `register_create_item` over a raw client object: the
attribute lookup `self.client.create_item` happens while building the
`add_api_route` call and may raise `AttributeError`. -/
def TransactionExtensionObj.register_create_item (ext : TransactionExtensionObj) :
    Except PyError TransactionExtensionObj := do
  let ep ← ext.client.getMethod ClientMethod.create_item
  pure { ext with router := ext.router ++
    [⟨"Create Item", "/collections/{collection_id}/items", ["POST"], ep⟩] }

/-- Embeds `register_update_item` over a raw client object. -/
def TransactionExtensionObj.register_update_item (ext : TransactionExtensionObj) :
    Except PyError TransactionExtensionObj := do
  let ep ← ext.client.getMethod ClientMethod.update_item
  pure { ext with router := ext.router ++
    [⟨"Update Item", "/collections/{collection_id}/items/{item_id}", ["PUT"], ep⟩] }

/-- Embeds `register_delete_item` over a raw client object. -/
def TransactionExtensionObj.register_delete_item (ext : TransactionExtensionObj) :
    Except PyError TransactionExtensionObj := do
  let ep ← ext.client.getMethod ClientMethod.delete_item
  pure { ext with router := ext.router ++
    [⟨"Delete Item", "/collections/{collection_id}/items/{item_id}", ["DELETE"], ep⟩] }

/-- Embeds `register_create_collection` over a raw client object. -/
def TransactionExtensionObj.register_create_collection (ext : TransactionExtensionObj) :
    Except PyError TransactionExtensionObj := do
  let ep ← ext.client.getMethod ClientMethod.create_collection
  pure { ext with router := ext.router ++
    [⟨"Create Collection", "/collections", ["POST"], ep⟩] }

/-- Embeds `register_update_collection` over a raw client object. -/
def TransactionExtensionObj.register_update_collection (ext : TransactionExtensionObj) :
    Except PyError TransactionExtensionObj := do
  let ep ← ext.client.getMethod ClientMethod.update_collection
  pure { ext with router := ext.router ++
    [⟨"Update Collection", "/collections/{collection_id}", ["PUT"], ep⟩] }

/-- Embeds `register_delete_collection` over a raw client object. -/
def TransactionExtensionObj.register_delete_collection (ext : TransactionExtensionObj) :
    Except PyError TransactionExtensionObj := do
  let ep ← ext.client.getMethod ClientMethod.delete_collection
  pure { ext with router := ext.router ++
    [⟨"Delete Collection", "/collections/{collection_id}", ["DELETE"], ep⟩] }

/-- Embeds `register(app)` over a raw client object: the six
`register_*` calls in source order, propagating the first exception
(an `AttributeError` from a missing method attribute), then handing
the router to the application. -/
def TransactionExtensionObj.register (ext : TransactionExtensionObj) :
    Except PyError (List Route) := do
  let e1 ← ext.register_create_item
  let e2 ← e1.register_update_item
  let e3 ← e2.register_delete_item
  let e4 ← e3.register_create_collection
  let e5 ← e4.register_update_collection
  let e6 ← e5.register_delete_collection
  pure e6.router

/-! ## STAC documents (stac types as consumed by core.py) -/

/-- One entry of a landing page's `links` list.  `title` is an
`Option` because some links are built without a title (or, for the
suspend-capable child links, with a possibly-None title). -/
structure Link where
  rel : String
  type : String
  title : Option String := none
  href : String
deriving DecidableEq, Repr

/-- The landing-page document built by `core.py`. -/
structure LandingPage where
  type : String
  id : String
  title : String
  description : String
  stac_version : String
  conformsTo : List String
  links : List Link
  stac_extensions : List String
deriving DecidableEq, Repr

/-- A collection as read by the landing-page code: `collection["id"]`
must exist, `collection.get("title")` may be absent or None. -/
structure Collection where
  id : String
  title : Option String := none
deriving DecidableEq, Repr

/-- The dict-shaped `all_collections` result that
`BaseCoreClient.landing_page` indexes with `collections["collections"]`. -/
structure CollectionsDict where
  collections : List Collection
deriving DecidableEq, Repr

/-- An API extension as read by `core.py`: the Python class name (for
`type(ext).__name__` matching) and the `conformance_classes` attribute,
`none` when the instance does not carry that attribute. -/
structure ApiExtension where
  className : String
  conformance_classes : Option (List String) := none
deriving DecidableEq, Repr

/-! ## LandingPageMixin and the two core clients -/

/-- The attrs of `LandingPageMixin`. -/
structure LandingPageMixin where
  stac_version : String := "1.0.0-beta.2"
  landing_page_id : String := "stac-fastapi"
  title : String := "stac-fastapi"
  description : String := "stac-fastapi"
deriving DecidableEq, Repr

/-- The two `conformsTo` entries hard-coded in
`LandingPageMixin._landing_page`. -/
def mixinConformsTo : List String :=
  ["https://stacspec.org/STAC-api.html",
   "http://docs.opengeospatial.org/is/17-069r3/17-069r3.html#ats_geojson"]

/-- The five links `LandingPageMixin._landing_page` always builds, in
source order. -/
def canonicalLinks (base : String) : List Link :=
  [⟨"self", "application/json", none, base⟩,
   ⟨"data", "application/json", none, urljoin base "collections"⟩,
   ⟨"docs", "application/json", some "OpenAPI docs", urljoin base "docs"⟩,
   ⟨"conformance", "application/json",
      some "STAC/WFS3 conformance classes implemented by this server",
      urljoin base "conformance"⟩,
   ⟨"search", "application/json", some "STAC search", urljoin base "search"⟩]

/-- The queryables link appended when the FilterExtension check passes. -/
def queryablesLink (base : String) : Link :=
  ⟨"http://www.opengis.net/def/rel/ogc/1.0/queryables", "application/geo+json",
    some "Filter Queryables", urljoin base "queryables"⟩

/-- The body of `LandingPageMixin._landing_page`, parameterised by the
result of the host's `self.extension_is_enabled("FilterExtension")`
call (the two host classes implement that check differently). -/
def LandingPageMixin.landing_page_body (m : LandingPageMixin)
    (filterEnabled : Bool) (base : String) : LandingPage :=
  let lp : LandingPage :=
    { type := "Catalog"
      id := m.landing_page_id
      title := m.title
      description := m.description
      stac_version := m.stac_version
      conformsTo := mixinConformsTo
      links := canonicalLinks base
      stac_extensions := [] }
  if filterEnabled then
    { lp with links := lp.links ++ [queryablesLink base] }
  else
    lp

/-- Embeds `BaseCoreClient`: the mixin attrs plus the extension registry. -/
structure BaseCoreClient extends LandingPageMixin where
  extensions : List ApiExtension := []
deriving DecidableEq, Repr

/-- Embeds `BaseCoreClient.extension_is_enabled`: class-name-string matching
over the registry (`type(ext).__name__ == extension`). -/
def BaseCoreClient.extension_is_enabled (c : BaseCoreClient)
    (extension : String) : Bool :=
  c.extensions.any (fun ext => ext.className == extension)

/-- The fixed base list of `BaseCoreClient.list_conformance_classes`. -/
def baseConformanceClasses : List String :=
  ["https://api.stacspec.org/v1.0.0-beta.2/core",
   "https://api.stacspec.org/v1.0.0-beta.2/ogcapi-features",
   "https://api.stacspec.org/v1.0.0-beta.2/item-search"]

/-- Embeds `getattr(extension, "conformance_classes", [])`. -/
def getattrConformanceClasses (e : ApiExtension) : List String :=
  e.conformance_classes.getD []

/-- Embeds `BaseCoreClient.list_conformance_classes`: the base list extended,
in registry order, by each extension's declared classes. -/
def BaseCoreClient.list_conformance_classes (c : BaseCoreClient) : List String :=
  c.extensions.foldl (fun acc e => acc ++ getattrConformanceClasses e)
    baseConformanceClasses

/-- Embeds `LandingPageMixin._landing_page` as invoked on a `BaseCoreClient`
host, whose `extension_is_enabled` is the class-name-string check. -/
def BaseCoreClient.landing_page_doc (c : BaseCoreClient) (base : String) :
    LandingPage :=
  c.toLandingPageMixin.landing_page_body
    (c.extension_is_enabled "FilterExtension") base

/-- The child link built per collection by `BaseCoreClient.landing_page`:
title is `collection.get("title") or collection.get("id")`. -/
def childLinkSync (base : String) (col : Collection) : Link :=
  ⟨"child", "application/json", pyOr col.title (some col.id),
    urljoin base ("collections/" ++ col.id)⟩

/-- Embeds `BaseCoreClient.landing_page`.  `base` stands for
`str(request.base_url)` and `colls` for the result of the abstract
`self.all_collections(...)` call, which this method indexes with
`["collections"]`.  The method overwrites `conformsTo` with the
conformance-class list, then appends one child link per collection. -/
def BaseCoreClient.landing_page (c : BaseCoreClient) (base : String)
    (colls : CollectionsDict) : LandingPage :=
  let lp := c.landing_page_doc base
  let lp := { lp with conformsTo := c.list_conformance_classes }
  { lp with links := lp.links ++ colls.collections.map (childLinkSync base) }

/-- Embeds `AsyncBaseCoreClient`: the mixin attrs plus the extension registry. -/
structure AsyncBaseCoreClient extends LandingPageMixin where
  extensions : List ApiExtension := []
deriving DecidableEq, Repr

/-- Embeds `AsyncBaseCoreClient.extension_is_enabled` as called from
`_landing_page`: that call passes the string `"FilterExtension"` where
the suspend-capable variant's `isinstance(ext, extension)` check expects
a type, so `isinstance` raises `TypeError` for every registry element;
`any([])` on an empty registry short-circuits to `False` because the
list comprehension evaluates nothing. -/
def AsyncBaseCoreClient.extension_is_enabled_str (c : AsyncBaseCoreClient) :
    Except PyError Bool :=
  match c.extensions with
  | [] => Except.ok false
  | _ :: _ => Except.error PyError.typeError

/-- Embeds `LandingPageMixin._landing_page` as invoked on an
`AsyncBaseCoreClient` host. -/
def AsyncBaseCoreClient.landing_page_doc (c : AsyncBaseCoreClient)
    (base : String) : Except PyError LandingPage := do
  let enabled ← c.extension_is_enabled_str
  pure (c.toLandingPageMixin.landing_page_body enabled base)

/-- The child link built per collection by
`AsyncBaseCoreClient.landing_page`: title is `collection.get("title")`
with no fallback. -/
def childLinkAsync (base : String) (col : Collection) : Link :=
  ⟨"child", "application/json", col.title,
    urljoin base ("collections/" ++ col.id)⟩

/-- Embeds `AsyncBaseCoreClient.landing_page`.  `base` stands for
`str(request.base_url)` and `cs` for the awaited result of the abstract
`self.all_collections(...)` call, iterated directly as a list.  Unlike
the synchronous variant, `conformsTo` is left at the mixin default. -/
def AsyncBaseCoreClient.landing_page (c : AsyncBaseCoreClient) (base : String)
    (cs : List Collection) : Except PyError LandingPage := do
  let lp ← c.landing_page_doc base
  pure { lp with links := lp.links ++ cs.map (childLinkAsync base) }

/-! ## Filters clients -/

/-- The queryables schema document, with Lean field names standing for
the JSON keys `$schema`, `$id`, `type`, `title`, `description`,
`properties`. -/
structure Queryables where
  schemaUri : String
  idUri : String
  type : String
  title : String
  description : String
  properties : List (String × String)
deriving DecidableEq, Repr

/-- Embeds `BaseFiltersClient.get_queryables`: the default implementation
returns a fixed blank queryable schema, ignoring `collection_id` and
all keyword arguments. -/
def BaseFiltersClient.get_queryables (collection_id : Option String)
    (kwargs : List (String × String)) : Queryables :=
  { schemaUri := "https://json-schema.org/draft/2019-09/schema"
    idUri := "https://example.org/queryables"
    type := "object"
    title := "Queryables for Example STAC API"
    description := "Queryable names for the example STAC API Item Search filter."
    properties := [] }

/-- Embeds `AsyncBaseFiltersClient.get_queryables`: same fixed default blank
schema as the synchronous variant. -/
def AsyncBaseFiltersClient.get_queryables (collection_id : Option String)
    (kwargs : List (String × String)) : Queryables :=
  { schemaUri := "https://json-schema.org/draft/2019-09/schema"
    idUri := "https://example.org/queryables"
    type := "object"
    title := "Queryables for Example STAC API"
    description := "Queryable names for the example STAC API Item Search filter."
    properties := [] }

/-! ## Helper lemmas -/

lemma foldl_append_join (f : ApiExtension → List String) :
    ∀ (l : List ApiExtension) (init : List String),
      l.foldl (fun acc e => acc ++ f e) init = init ++ (l.map f).flatten
  | [], _ => by simp
  | e :: t, init => by
      rw [List.foldl_cons, foldl_append_join f t (init ++ f e)]
      simp [List.append_assoc]

/-! ## Claims -/

/-- C1, as amended: `_create_endpoint` raises `NotImplementedError`
exactly when the client is neither an `AsyncBaseTransactionsClient`
nor a `BaseTransactionsClient`, but `register` never invokes
`_create_endpoint`: registration completes without error for every
client, including an unclassifiable one, so no configuration error is
raised at startup. -/
theorem C1_create_endpoint_classification (ext : TransactionExtension)
    (f : ClientMethod) :
    (ext.create_endpoint f = Except.error PyError.notImplementedError ↔
      ext.client.isAsyncBase = false ∧ ext.client.isSyncBase = false)
    ∧ (ext.register).isOk = true := by
  constructor
  · unfold TransactionExtension.create_endpoint
    cases hA : ext.client.isAsyncBase <;> cases hS : ext.client.isSyncBase <;> simp
  · rw [register_eq]
    rfl

/-- C1 counterexample: for a client that is neither known variant, the
claim says `register` raises `NotImplementedError` during registration;
in fact `register` completes and returns the six routes. -/
theorem C1_counterexample :
    (TransactionExtension.mk ⟨false, false⟩ [] []).register = Except.ok transactionRoutes
    ∧ (TransactionExtension.mk ⟨false, false⟩ [] []).register ≠
        Except.error PyError.notImplementedError := by
  refine ⟨by simp [register_eq], ?_⟩
  rw [register_eq]
  exact fun h => Except.noConfusion h

/-- C2, as amended: the capability-selected adapters exist only inside
`_create_endpoint`; route registration does not use them.  For every
client, `register` binds each of the six routes directly to the
client's corresponding bound method. -/
theorem C2_register_binds_client_methods (ext : TransactionExtension) :
    ext.register = Except.ok (ext.router ++ transactionRoutes)
    ∧ transactionRoutes.map Route.endpoint =
        [ClientMethod.create_item, ClientMethod.update_item, ClientMethod.delete_item,
         ClientMethod.create_collection, ClientMethod.update_collection,
         ClientMethod.delete_collection].map Endpoint.clientMethod :=
  ⟨register_eq ext, by decide⟩

/-- C2 counterexample: for a synchronous transactions client, the
capability-selected adapter would be the synchronous one, yet the
endpoints `register` actually binds are the raw client methods, not
the adapter outputs. -/
theorem C2_counterexample :
    (TransactionExtension.mk ⟨false, true⟩ [] []).create_endpoint ClientMethod.create_item
        = Except.ok (Endpoint.syncEndpoint ClientMethod.create_item)
    ∧ (TransactionExtension.mk ⟨false, true⟩ [] []).register = Except.ok transactionRoutes
    ∧ transactionRoutes.map Route.endpoint ≠
        [ClientMethod.create_item, ClientMethod.update_item, ClientMethod.delete_item,
         ClientMethod.create_collection, ClientMethod.update_collection,
         ClientMethod.delete_collection].map Endpoint.syncEndpoint := by
  refine ⟨rfl, by simp [register_eq], by decide⟩

/-- C4: `register` adds exactly six routes, with exactly the claimed
(HTTP methods, path) pairs, in this order: POST
/collections/\x7bcollection_id\x7d/items, PUT and DELETE
/collections/\x7bcollection_id\x7d/items/\x7bitem_id\x7d, POST /collections, PUT and
DELETE /collections/\x7bcollection_id\x7d — and no other route. -/
theorem C4_register_route_table (ext : TransactionExtension) :
    ext.register = Except.ok (ext.router ++ transactionRoutes)
    ∧ transactionRoutes.map (fun r => (r.methods, r.path)) =
        [(["POST"], "/collections/{collection_id}/items"),
         (["PUT"], "/collections/{collection_id}/items/{item_id}"),
         (["DELETE"], "/collections/{collection_id}/items/{item_id}"),
         (["POST"], "/collections"),
         (["PUT"], "/collections/{collection_id}"),
         (["DELETE"], "/collections/{collection_id}")] :=
  ⟨register_eq ext, by decide⟩

/-- C9, as amended: `register` performs no classification and raises
no error of its own; for every client object that possesses the six
transaction methods, registration completes without error and appends
exactly the six routes, each bound directly to the corresponding
client method, never passing through `_create_endpoint`.  (A client
object lacking one of the methods instead makes the attribute lookup
`self.client.<method>` raise `AttributeError` during registration, as
the counterexample shows.) -/
theorem C9_register_needs_methods (ext : TransactionExtensionObj)
    (h : ∀ m, ext.client.hasAttr m = true) :
    ext.register = Except.ok (ext.router ++ transactionRoutes) := by
  simp [TransactionExtensionObj.register,
    TransactionExtensionObj.register_create_item,
    TransactionExtensionObj.register_update_item,
    TransactionExtensionObj.register_delete_item,
    TransactionExtensionObj.register_create_collection,
    TransactionExtensionObj.register_update_collection,
    TransactionExtensionObj.register_delete_collection,
    TransactionsClientObj.getMethod, h, transactionRoutes, List.append_assoc,
    Bind.bind, Except.bind, Pure.pure, Except.pure]

/-- Witness for C9: a concrete client object possessing the six
methods, for which registration completes with exactly the six
directly-bound routes. -/
theorem C9_register_needs_methods_witness :
    (TransactionExtensionObj.mk ⟨false, true, fun _ => true⟩ [] []).register =
      Except.ok (([] : List Route) ++ transactionRoutes) :=
  C9_register_needs_methods
    (TransactionExtensionObj.mk ⟨false, true, fun _ => true⟩ [] [])
    (fun _ => rfl)

/-- C9 counterexample: for a client object possessing none of the six
methods (a plain foreign object), registration raises `AttributeError`
at the first attribute lookup instead of completing with six routes,
falsifying "never raises for any client object whatsoever". -/
theorem C9_counterexample :
    (TransactionExtensionObj.mk ⟨false, false, fun _ => false⟩ [] []).register =
      Except.error PyError.attributeError
    ∧ (TransactionExtensionObj.mk ⟨false, false, fun _ => false⟩ [] []).register ≠
        Except.ok transactionRoutes := by
  have h : (TransactionExtensionObj.mk ⟨false, false, fun _ => false⟩ [] []).register =
      Except.error PyError.attributeError := rfl
  refine ⟨h, ?_⟩
  rw [h]
  exact fun hc => Except.noConfusion hc

/-- C10: `extension_is_enabled` returns true exactly when some
extension in the registry has a class whose name equals the given
string; with an empty registry it returns false for every name. -/
theorem C10_extension_is_enabled_spec (c : BaseCoreClient) (name : String) :
    (c.extension_is_enabled name = true ↔
      ∃ e ∈ c.extensions, e.className = name)
    ∧ ({ c with extensions := [] } : BaseCoreClient).extension_is_enabled name
        = false := by
  constructor
  · simp [BaseCoreClient.extension_is_enabled, List.any_eq_true]
  · simp [BaseCoreClient.extension_is_enabled]

/-- C6: `list_conformance_classes` is the fixed base list of three
conformance URIs followed by the concatenation, in registry order, of
each extension's declared conformance classes (an extension without
the attribute contributing nothing). -/
theorem C6_list_conformance_classes_spec (c : BaseCoreClient) :
    c.list_conformance_classes =
      baseConformanceClasses ++ (c.extensions.map getattrConformanceClasses).flatten
    ∧ baseConformanceClasses.length = 3 := by
  refine ⟨?_, by decide⟩
  unfold BaseCoreClient.list_conformance_classes
  exact foldl_append_join getattrConformanceClasses c.extensions baseConformanceClasses

/-- C5: `_landing_page` (on a `BaseCoreClient` host) returns exactly
the five canonical links with rels self, data, docs, conformance,
search in that order, hrefs derived from the base URL, followed by
exactly one queryables link precisely when an extension named
`FilterExtension` is enabled, and no other link. -/
theorem C5_landing_page_doc_links (c : BaseCoreClient) (base : String) :
    (c.landing_page_doc base).links =
      canonicalLinks base ++
        (if c.extension_is_enabled "FilterExtension" then [queryablesLink base] else [])
    ∧ (canonicalLinks base).map Link.rel =
        ["self", "data", "docs", "conformance", "search"]
    ∧ (canonicalLinks base).map Link.href =
        [base, urljoin base "collections", urljoin base "docs",
         urljoin base "conformance", urljoin base "search"]
    ∧ (queryablesLink base).href = urljoin base "queryables" := by
  refine ⟨?_, rfl, rfl, rfl⟩
  unfold BaseCoreClient.landing_page_doc LandingPageMixin.landing_page_body
  cases c.extension_is_enabled "FilterExtension" <;> simp

/-- C7: `BaseCoreClient.landing_page` returns the canonical
self/data/docs/conformance/search links plus exactly one child link
per collection of the `all_collections` result, each child href being
the base URL joined with `collections/` and that collection's id. -/
theorem C7_landing_page_child_links (c : BaseCoreClient) (base : String)
    (colls : CollectionsDict) :
    (c.landing_page base colls).links =
      canonicalLinks base ++
        (if c.extension_is_enabled "FilterExtension" then [queryablesLink base] else [])
        ++ colls.collections.map (childLinkSync base)
    ∧ (colls.collections.map (childLinkSync base)).map Link.rel =
        colls.collections.map (fun _ => "child")
    ∧ (colls.collections.map (childLinkSync base)).map Link.href =
        colls.collections.map (fun col => urljoin base ("collections/" ++ col.id)) := by
  refine ⟨?_, by simp [childLinkSync, Function.comp_def], by simp [childLinkSync]⟩
  unfold BaseCoreClient.landing_page BaseCoreClient.landing_page_doc
    LandingPageMixin.landing_page_body
  cases c.extension_is_enabled "FilterExtension" <;> simp

/-- C8: the default `get_queryables` of both filters-client variants
returns the same fixed blank JSON-Schema-shaped document with an empty
properties object, for every `collection_id` and keyword arguments. -/
theorem C8_get_queryables_fixed (cid cid2 : Option String)
    (kw kw2 : List (String × String)) :
    BaseFiltersClient.get_queryables cid kw =
      AsyncBaseFiltersClient.get_queryables cid2 kw2
    ∧ (BaseFiltersClient.get_queryables cid kw).properties = [] :=
  ⟨rfl, rfl⟩

/-- C3, as amended: the two landing-page variants agree (with an empty
extension registry) on the rel, type and href of every link, but they
are not identical in contract: the synchronous variant overwrites
`conformsTo` with the conformance-class list while the suspend-capable
variant keeps the mixin default; the synchronous child-link title falls
back to the collection id while the suspend-capable one uses the raw
title; the synchronous variant consumes a dict-shaped collections
result while the suspend-capable one consumes a list; and with a
nonempty registry the suspend-capable variant raises `TypeError` from
its filter-extension check. -/
theorem C3_landing_page_variants (m : LandingPageMixin) (base : String)
    (cs : List Collection) :
    (∃ a, AsyncBaseCoreClient.landing_page ⟨m, []⟩ base cs = Except.ok a
      ∧ a.links.map (fun l => (l.rel, l.type, l.href)) =
          (BaseCoreClient.landing_page ⟨m, []⟩ base ⟨cs⟩).links.map
            (fun l => (l.rel, l.type, l.href))
      ∧ a.conformsTo = mixinConformsTo
      ∧ (BaseCoreClient.landing_page ⟨m, []⟩ base ⟨cs⟩).conformsTo =
          baseConformanceClasses)
    ∧ ∀ e es, AsyncBaseCoreClient.landing_page ⟨m, e :: es⟩ base cs =
        Except.error PyError.typeError := by
  have hfun : ((fun l : Link => (l.rel, l.type, l.href)) ∘ childLinkAsync base)
      = ((fun l : Link => (l.rel, l.type, l.href)) ∘ childLinkSync base) := by
    funext col
    rfl
  constructor
  · refine ⟨_, rfl, ?_, rfl, rfl⟩
    show (canonicalLinks base ++ cs.map (childLinkAsync base)).map _ =
      (canonicalLinks base ++ cs.map (childLinkSync base)).map _
    rw [List.map_append, List.map_append, List.map_map, List.map_map, hfun]
  · intro e es
    rfl

/-- C3 counterexample: with no extensions, base URL
`http://testserver/` and a single collection `c1` carrying no title,
the suspend-capable variant's landing page differs from the
synchronous one (different `conformsTo`, different child-link title),
falsifying "identical in contract". -/
theorem C3_counterexample :
    (AsyncBaseCoreClient.landing_page ⟨{ }, []⟩ "http://testserver/"
        [⟨"c1", none⟩]).toOption ≠
      some (BaseCoreClient.landing_page ⟨{ }, []⟩ "http://testserver/"
        ⟨[⟨"c1", none⟩]⟩) := by
  decide

end StacFastapi
